import Mathlib

/-!
Verification of the usage/session analytics core of the claude-deck backend
(`backend/app/services/pricing_service.py`, `usage_service.py`,
`session_service.py`) against its natural-language specification.

Modelling conventions, chosen once and used throughout:
* Python `datetime` instants are modelled as `Int` seconds since the Unix
  epoch, interpreted in UTC.  `datetime.replace(minute=0, second=0,
  microsecond=0)` is flooring to a multiple of 3600; a calendar day is a
  floor-division by 86400; calendar dates are recovered with the standard
  civil-from-days algorithm.
* Python `float` money amounts and rates are modelled as exact rationals
  (`Rat`); Python `int` token counts are modelled as `Int`.
* Python strings are modelled as Lean `String`, with the handful of string
  operations the source uses (lower-casing, substring test, splitting)
  re-implemented over `String.data` so that they compute by kernel
  reduction; they agree with the Python operations on the ASCII strings
  the service handles.
* Python dicts used as ordered key-value stores (`defaultdict` grouping,
  the model-breakdown accumulator, the static pricing table) are modelled
  as association lists in insertion order, which is exactly the iteration
  order of a Python dict.
-/

/-! ### Generic list and string utilities -/

/-- First-appearance deduplication: the sequence of distinct values of `l`
in the order in which they first occur.  This is the key order of a Python
dict populated by iterating `l`. -/
def dedupFirst {K : Type} [DecidableEq K] (l : List K) : List K :=
  l.foldl (fun acc k => if k ∈ acc then acc else acc ++ [k]) []

/-- One step of a stable insertion sort: insert `x` before the first element
`y` with `lt x y`, keeping earlier equal elements in front (mirrors the
stability of Python's `sorted`/`list.sort`). -/
def insertSorted {α : Type} (lt : α → α → Bool) (x : α) : List α → List α
  | [] => [x]
  | y :: ys => if lt x y then x :: y :: ys else y :: insertSorted lt x ys

/-- Stable sort by the strict comparator `lt` (model of Python `sorted`). -/
def sortBy {α : Type} (lt : α → α → Bool) (l : List α) : List α :=
  l.foldl (fun acc x => insertSorted lt x acc) []

/-- Does the character list `pat` occur contiguously inside `s`?
(Model of the Python substring test `pat in s`.) -/
def hasSubAux (pat : List Char) : List Char → Bool
  | [] => pat.isEmpty
  | c :: rest => pat.isPrefixOf (c :: rest) || hasSubAux pat rest

/-- Python `pat in s` for strings. -/
def strIn (pat s : String) : Bool := hasSubAux pat.data s.data

/-- ASCII lower-casing of a string, character by character (model of
Python `str.lower()` on the ASCII model identifiers the service sees). -/
def asciiLower (s : String) : String := String.mk (s.data.map Char.toLower)

/-- Python `s.startswith(pre)`. -/
def strStarts (s pre : String) : Bool := pre.data.isPrefixOf s.data

/-- Python `s[len(pre):]`: drop the first `n` characters. -/
def strDropN (s : String) (n : Nat) : String := String.mk (s.data.drop n)

/-- Split a character list at its first occurrence of `c`; `none` when `c`
does not occur. -/
def splitOnceChar (c : Char) : List Char → Option (List Char × List Char)
  | [] => none
  | x :: xs =>
    if x = c then some ([], xs)
    else
      match splitOnceChar c xs with
      | some (a, b) => some (x :: a, b)
      | none => none

/-- Model of Python `s.split(":", 1)` unpacked into two components, as used
on session keys (which always contain a colon by construction).  For a
string without a colon the Python unpacking would raise; that case is
unreachable here and is mapped to `(s, "")`. -/
def splitFirstColon (s : String) : String × String :=
  match splitOnceChar ':' s.data with
  | some (a, b) => (String.mk a, String.mk b)
  | none => (s, "")

/-- Python `int(x)` on a float/rational: truncation toward zero. -/
def pyInt (q : Rat) : Int := if q < 0 then q.ceil else q.floor

/-- Round-half-to-even on a rational (the rounding mode of Python's
built-in `round`). -/
def roundHalfEven (q : Rat) : Int :=
  let f := q.floor
  let r := q - (f : Rat)
  if r < 1/2 then f
  else if 1/2 < r then f + 1
  else if f % 2 = 0 then f else f + 1

/-- Python `round(x, 2)`: round to two decimal places, halves to even. -/
def pyRound2 (q : Rat) : Rat := (roundHalfEven (q * 100) : Rat) / 100

/-! ### Calendar arithmetic

The source keys daily aggregates by `strftime("%Y-%m-%d")` and monthly
aggregates by `strftime("%Y-%m")`, and parses date filters with
`strptime(..., "%Y-%m-%d")`.  On the epoch-seconds model these are the
classic civil-calendar conversions (Gregorian, no leap seconds, matching
Python's `datetime`). -/

/-- Day number since the Unix epoch of the civil date `(y, m, d)`
(standard civil-from-days algorithm, proleptic Gregorian). -/
def daysFromCivil (y m d : Int) : Int :=
  let y' := if m ≤ 2 then y - 1 else y
  let era := (if 0 ≤ y' then y' else y' - 399).fdiv 400
  let yoe := y' - era * 400
  let mp := if 2 < m then m - 3 else m + 9
  let doy := (153 * mp + 2).fdiv 5 + d - 1
  let doe := yoe * 365 + yoe.fdiv 4 - yoe.fdiv 100 + doy
  era * 146097 + doe - 719468

/-- Civil date `(year, month)` of an epoch day number (inverse direction of
`daysFromCivil`, months only, for the `"%Y-%m"` aggregation key). -/
def civilYearMonth (days : Int) : Int × Int :=
  let z := days + 719468
  let era := (if 0 ≤ z then z else z - 146096).fdiv 146097
  let doe := z - era * 146097
  let yoe := (doe - doe.fdiv 1460 + doe.fdiv 36524 - doe.fdiv 146096).fdiv 365
  let y := yoe + era * 400
  let doy := doe - (365 * yoe + yoe.fdiv 4 - yoe.fdiv 100)
  let mp := (5 * doy + 2).fdiv 153
  let m := if mp < 10 then mp + 3 else mp - 9
  (if m ≤ 2 then y + 1 else y, m)

/-- Is `y` a Gregorian leap year (as `datetime` validates dates). -/
def isLeapYear (y : Int) : Bool :=
  (y % 4 == 0 && y % 100 != 0) || y % 400 == 0

/-- Number of days in month `m` of year `y`. -/
def daysInMonth (y m : Int) : Int :=
  if m = 2 then (if isLeapYear y then 29 else 28)
  else if m = 4 ∨ m = 6 ∨ m = 9 ∨ m = 11 then 30
  else 31

/-- Parse a digit string to a natural number (model of `int(...)` inside
`strptime`); `none` on a non-digit or empty string. -/
def parseDigits : List Char → Option Nat → Option Nat
  | [], acc => acc
  | c :: rest, acc =>
    if c.isDigit then
      parseDigits rest (some ((acc.getD 0) * 10 + (c.toNat - 48)))
    else none

/-- Split a character list on every occurrence of the separator `c`
(model of Python `str.split` with a one-character separator). -/
def splitCharAux (c : Char) : List Char → List Char → List (List Char)
  | [], cur => [cur.reverse]
  | x :: xs, cur =>
    if x = c then cur.reverse :: splitCharAux c xs []
    else splitCharAux c xs (x :: cur)

/-- Model of `datetime.strptime(s, "%Y-%m-%d")`: split on `-`, parse the
three numeric fields, and validate them as a real calendar date; `none`
models the `ValueError` that the service propagates to the caller. -/
def parse_date (s : String) : Option (Int × Int × Int) :=
  match splitCharAux '-' s.data [] with
  | [ys, ms, ds] =>
    match parseDigits ys none, parseDigits ms none,
          parseDigits ds none with
    | some y, some m, some d =>
      let y : Int := y
      let m : Int := m
      let d : Int := d
      if 1 ≤ m ∧ m ≤ 12 ∧ 1 ≤ d ∧ d ≤ daysInMonth y m then
        some (y, m, d)
      else none
    | _, _, _ => none
  | _ => none

/-! ### Pricing service (`pricing_service.py`) -/

/-- One row of `PricingService.MODEL_PRICING`: per-token rates in USD.
`none` models an absent dict key (`dict.get` returning `None`); the
Claude 3.x models carry no `*_above_200k` keys. -/
structure ModelPricing where
  input : Option Rat
  output : Option Rat
  cache_creation : Option Rat
  cache_read : Option Rat
  input_above_200k : Option Rat
  output_above_200k : Option Rat
  cache_creation_above_200k : Option Rat
  cache_read_above_200k : Option Rat
deriving DecidableEq

/-- `PricingService.TIERED_THRESHOLD`. -/
def TIERED_THRESHOLD : Int := 200000

/-- `PricingService.MODEL_PRICING`, in source (dict insertion) order. -/
def MODEL_PRICING : List (String × ModelPricing) :=
  [ ("claude-sonnet-4-20250514",
     { input := some ((3 : Rat) / 1000000),
       output := some ((15 : Rat) / 1000000),
       cache_creation := some ((375 : Rat) / 100 / 1000000),
       cache_read := some ((30 : Rat) / 100 / 1000000),
       input_above_200k := some ((6 : Rat) / 1000000),
       output_above_200k := some ((2250 : Rat) / 100 / 1000000),
       cache_creation_above_200k := some ((750 : Rat) / 100 / 1000000),
       cache_read_above_200k := some ((60 : Rat) / 100 / 1000000) }),
    ("claude-opus-4-20250514",
     { input := some ((15 : Rat) / 1000000),
       output := some ((75 : Rat) / 1000000),
       cache_creation := some ((1875 : Rat) / 100 / 1000000),
       cache_read := some ((150 : Rat) / 100 / 1000000),
       input_above_200k := some ((30 : Rat) / 1000000),
       output_above_200k := some ((11250 : Rat) / 100 / 1000000),
       cache_creation_above_200k := some ((3750 : Rat) / 100 / 1000000),
       cache_read_above_200k := some ((300 : Rat) / 100 / 1000000) }),
    ("claude-opus-4-5-20251101",
     { input := some ((15 : Rat) / 1000000),
       output := some ((75 : Rat) / 1000000),
       cache_creation := some ((1875 : Rat) / 100 / 1000000),
       cache_read := some ((150 : Rat) / 100 / 1000000),
       input_above_200k := some ((30 : Rat) / 1000000),
       output_above_200k := some ((11250 : Rat) / 100 / 1000000),
       cache_creation_above_200k := some ((3750 : Rat) / 100 / 1000000),
       cache_read_above_200k := some ((300 : Rat) / 100 / 1000000) }),
    ("claude-3-5-sonnet-20241022",
     { input := some ((3 : Rat) / 1000000),
       output := some ((15 : Rat) / 1000000),
       cache_creation := some ((375 : Rat) / 100 / 1000000),
       cache_read := some ((30 : Rat) / 100 / 1000000),
       input_above_200k := none, output_above_200k := none,
       cache_creation_above_200k := none, cache_read_above_200k := none }),
    ("claude-3-5-sonnet-20240620",
     { input := some ((3 : Rat) / 1000000),
       output := some ((15 : Rat) / 1000000),
       cache_creation := some ((375 : Rat) / 100 / 1000000),
       cache_read := some ((30 : Rat) / 100 / 1000000),
       input_above_200k := none, output_above_200k := none,
       cache_creation_above_200k := none, cache_read_above_200k := none }),
    ("claude-3-5-haiku-20241022",
     { input := some ((80 : Rat) / 100 / 1000000),
       output := some ((4 : Rat) / 1000000),
       cache_creation := some ((1 : Rat) / 1000000),
       cache_read := some ((8 : Rat) / 100 / 1000000),
       input_above_200k := none, output_above_200k := none,
       cache_creation_above_200k := none, cache_read_above_200k := none }),
    ("claude-3-opus-20240229",
     { input := some ((15 : Rat) / 1000000),
       output := some ((75 : Rat) / 1000000),
       cache_creation := some ((1875 : Rat) / 100 / 1000000),
       cache_read := some ((150 : Rat) / 100 / 1000000),
       input_above_200k := none, output_above_200k := none,
       cache_creation_above_200k := none, cache_read_above_200k := none }),
    ("claude-3-sonnet-20240229",
     { input := some ((3 : Rat) / 1000000),
       output := some ((15 : Rat) / 1000000),
       cache_creation := some ((375 : Rat) / 100 / 1000000),
       cache_read := some ((30 : Rat) / 100 / 1000000),
       input_above_200k := none, output_above_200k := none,
       cache_creation_above_200k := none, cache_read_above_200k := none }),
    ("claude-3-haiku-20240307",
     { input := some ((25 : Rat) / 100 / 1000000),
       output := some ((125 : Rat) / 100 / 1000000),
       cache_creation := some ((30 : Rat) / 100 / 1000000),
       cache_read := some ((3 : Rat) / 100 / 1000000),
       input_above_200k := none, output_above_200k := none,
       cache_creation_above_200k := none, cache_read_above_200k := none }) ]

/-- `PricingService.PROVIDER_PREFIXES`, in source order. -/
def providerHeads : List String :=
  ["anthropic/", "claude-", "claude-3-", "claude-3-5-"]

/-- Direct dict lookup `MODEL_PRICING[name]` (first match in insertion
order; the table's keys are distinct). -/
def lookupPricing (name : String) : Option ModelPricing :=
  (MODEL_PRICING.find? (fun kv => kv.1 == name)).map (fun kv => kv.2)

/-- `PricingService.normalize_model_name`: lower-case, then strip each
provider marker in turn when the current value starts with it. -/
def normalize_model_name (model_name : String) : String :=
  providerHeads.foldl
    (fun acc pre => if strStarts acc pre then strDropN acc pre.data.length else acc)
    (asciiLower model_name)

/-- `PricingService.get_model_pricing`: direct match, then provider-marker
match, then normalized match, then fuzzy containment match (first hit in
table order), else `none`. -/
def get_model_pricing (model_name : String) : Option ModelPricing :=
  match lookupPricing model_name with
  | some p => some p
  | none =>
    match providerHeads.findSome? (fun pre => lookupPricing (pre ++ model_name)) with
    | some p => some p
    | none =>
      match MODEL_PRICING.find?
          (fun kv => normalize_model_name kv.1 == normalize_model_name model_name) with
      | some kv => some kv.2
      | none =>
        match MODEL_PRICING.find?
            (fun kv => strIn kv.1 model_name || strIn model_name kv.1) with
        | some kv => some kv.2
        | none => none

/-- `PricingService.calculate_tiered_cost`. -/
def calculate_tiered_cost (total_tokens : Int) (base_price tiered_price : Option Rat)
    (threshold : Int) : Rat :=
  if total_tokens ≤ 0 then 0
  else if threshold < total_tokens ∧ tiered_price.isSome then
    let tokens_below : Int := min total_tokens threshold
    let tokens_above : Int := max 0 (total_tokens - threshold)
    let tiered_cost : Rat := (tokens_above : Rat) * tiered_price.getD 0
    match base_price with
    | some bp => tiered_cost + (tokens_below : Rat) * bp
    | none => tiered_cost
  else
    match base_price with
    | some bp => (total_tokens : Rat) * bp
    | none => 0

/-- `PricingService.calculate_cost`. -/
def calculate_cost (input_tokens output_tokens cache_creation_tokens cache_read_tokens : Int)
    (model : Option String) : Rat :=
  match model with
  | none => 0
  | some m =>
    match get_model_pricing m with
    | none => 0
    | some p =>
        calculate_tiered_cost input_tokens p.input p.input_above_200k TIERED_THRESHOLD
      + calculate_tiered_cost output_tokens p.output p.output_above_200k TIERED_THRESHOLD
      + calculate_tiered_cost cache_creation_tokens p.cache_creation
          p.cache_creation_above_200k TIERED_THRESHOLD
      + calculate_tiered_cost cache_read_tokens p.cache_read
          p.cache_read_above_200k TIERED_THRESHOLD

/-! ### Usage entries and aggregation (`usage_service.py`) -/

/-- `LoadedUsageEntry`: one usage record extracted from a JSONL line.
`timestamp` is epoch seconds UTC; token counts are Python ints. -/
structure LoadedUsageEntry where
  timestamp : Int
  input_tokens : Int
  output_tokens : Int
  cache_creation_tokens : Int
  cache_read_tokens : Int
  cost_usd : Option Rat
  model : String
  session_id : String
  version : Option String
  project_path : String
deriving DecidableEq

/-- `UsageService._calculate_entry_cost`: the entry's precomputed
`cost_usd` when present, otherwise the pricing service's cost for this
single entry's token counts. -/
def calculate_entry_cost (e : LoadedUsageEntry) : Rat :=
  match e.cost_usd with
  | some c => c
  | none =>
    calculate_cost e.input_tokens e.output_tokens e.cache_creation_tokens
      e.cache_read_tokens (some e.model)

/-- `ModelBreakdown`: per-model subtotal row. -/
structure ModelBreakdown where
  model : String
  input_tokens : Int
  output_tokens : Int
  cache_creation_tokens : Int
  cache_read_tokens : Int
  cost : Rat
deriving DecidableEq

/-- The zero accumulator the source's `defaultdict` creates on first use
of a model key. -/
def bdZero (m : String) : ModelBreakdown :=
  { model := m, input_tokens := 0, output_tokens := 0,
    cache_creation_tokens := 0, cache_read_tokens := 0, cost := 0 }

/-- Add one entry into a model's accumulator row. -/
def bdAdd (b : ModelBreakdown) (e : LoadedUsageEntry) : ModelBreakdown :=
  { b with
    input_tokens := b.input_tokens + e.input_tokens,
    output_tokens := b.output_tokens + e.output_tokens,
    cache_creation_tokens := b.cache_creation_tokens + e.cache_creation_tokens,
    cache_read_tokens := b.cache_read_tokens + e.cache_read_tokens,
    cost := b.cost + calculate_entry_cost e }

/-- One iteration of the `for entry in entries` loop of
`_aggregate_model_breakdowns`: update the model's row in place, creating
it at the end of the dict when the model is new. -/
def bdUpdate (acc : List ModelBreakdown) (e : LoadedUsageEntry) : List ModelBreakdown :=
  if acc.any (fun b => b.model == e.model) then
    acc.map (fun b => if b.model == e.model then bdAdd b e else b)
  else
    acc ++ [bdAdd (bdZero e.model) e]

/-- `UsageService._aggregate_model_breakdowns`: fold the entries through
the keyed accumulator and emit the rows in dict (insertion) order. -/
def aggregate_model_breakdowns (entries : List LoadedUsageEntry) : List ModelBreakdown :=
  entries.foldl bdUpdate []

/-- `list(set(e.model for e in entries))`.  A Python set iterates in an
unspecified order; first-appearance order is one concrete realization, and
no claim depends on the order of `models_used`. -/
def modelsUsed (entries : List LoadedUsageEntry) : List String :=
  dedupFirst (entries.map (fun e => e.model))

/-- Group `entries` by `key`, keys in first-appearance order, each group in
original entry order — exactly a `defaultdict(list)` populated by one pass
over `entries`. -/
def groupByKey {K : Type} [DecidableEq K] (key : LoadedUsageEntry → K)
    (entries : List LoadedUsageEntry) : List (K × List LoadedUsageEntry) :=
  (dedupFirst (entries.map key)).map
    (fun k => (k, entries.filter (fun e => decide (key e = k))))

/-- Daily aggregation key: `strftime("%Y-%m-%d")`, i.e. the entry's epoch
day number. -/
def dayKey (e : LoadedUsageEntry) : Int := e.timestamp.fdiv 86400

/-- Monthly aggregation key: `strftime("%Y-%m")`, i.e. the `(year, month)`
of the entry's epoch day. -/
def monthKey (e : LoadedUsageEntry) : Int × Int := civilYearMonth (e.timestamp.fdiv 86400)

/-- Session aggregation key: `f"{entry.project_path}:{entry.session_id}"`. -/
def sessionKey (e : LoadedUsageEntry) : String := e.project_path ++ ":" ++ e.session_id

/-- `DailyUsage` aggregate row (`date` is the epoch day number standing
for the `"%Y-%m-%d"` string key, which sorts identically). -/
structure DailyUsage where
  date : Int
  input_tokens : Int
  output_tokens : Int
  cache_creation_tokens : Int
  cache_read_tokens : Int
  total_cost : Rat
  models_used : List String
  model_breakdowns : List ModelBreakdown
deriving DecidableEq

/-- Build one `DailyUsage` row from one day's entries. -/
def mkDailyRow (k : Int) (day_entries : List LoadedUsageEntry) : DailyUsage :=
  { date := k,
    input_tokens := (day_entries.map (fun e => e.input_tokens)).sum,
    output_tokens := (day_entries.map (fun e => e.output_tokens)).sum,
    cache_creation_tokens := (day_entries.map (fun e => e.cache_creation_tokens)).sum,
    cache_read_tokens := (day_entries.map (fun e => e.cache_read_tokens)).sum,
    total_cost := (day_entries.map calculate_entry_cost).sum,
    models_used := modelsUsed day_entries,
    model_breakdowns := aggregate_model_breakdowns day_entries }

/-- `UsageService.aggregate_by_daily`: group by date, emit one row per
date, sorted by date descending (`sorted(..., reverse=True)` on the
`"%Y-%m-%d"` keys). -/
def aggregate_by_daily (entries : List LoadedUsageEntry) : List DailyUsage :=
  sortBy (fun a b => decide (b.date < a.date))
    ((groupByKey dayKey entries).map (fun p => mkDailyRow p.1 p.2))

/-- `MonthlyUsage` aggregate row (`month` = `(year, month)` standing for
the `"%Y-%m"` string key, which sorts identically). -/
structure MonthlyUsage where
  month : Int × Int
  input_tokens : Int
  output_tokens : Int
  cache_creation_tokens : Int
  cache_read_tokens : Int
  total_cost : Rat
  models_used : List String
  model_breakdowns : List ModelBreakdown
deriving DecidableEq

/-- Build one `MonthlyUsage` row from one month's entries. -/
def mkMonthlyRow (k : Int × Int) (month_entries : List LoadedUsageEntry) : MonthlyUsage :=
  { month := k,
    input_tokens := (month_entries.map (fun e => e.input_tokens)).sum,
    output_tokens := (month_entries.map (fun e => e.output_tokens)).sum,
    cache_creation_tokens := (month_entries.map (fun e => e.cache_creation_tokens)).sum,
    cache_read_tokens := (month_entries.map (fun e => e.cache_read_tokens)).sum,
    total_cost := (month_entries.map calculate_entry_cost).sum,
    models_used := modelsUsed month_entries,
    model_breakdowns := aggregate_model_breakdowns month_entries }

/-- Descending comparison on `(year, month)` pairs, the order of
`sorted(monthly_data.items(), reverse=True)` on `"%Y-%m"` keys. -/
def ymLt (a b : Int × Int) : Bool :=
  decide (a.1 < b.1 ∨ (a.1 = b.1 ∧ a.2 < b.2))

/-- `UsageService.aggregate_by_monthly`. -/
def aggregate_by_monthly (entries : List LoadedUsageEntry) : List MonthlyUsage :=
  sortBy (fun a b => ymLt b.month a.month)
    ((groupByKey monthKey entries).map (fun p => mkMonthlyRow p.1 p.2))

/-- First entry achieving the maximal timestamp (model of Python
`max(entries, key=lambda e: e.timestamp)`, which keeps the first maximum). -/
def maxByTimestamp : List LoadedUsageEntry → Option LoadedUsageEntry
  | [] => none
  | e :: es =>
    match maxByTimestamp es with
    | none => some e
    | some m => if e.timestamp < m.timestamp then some m else some e

/-- `SessionUsage` aggregate row.  `last_activity` is the epoch day number
standing for the `strftime("%Y-%m-%d")` string, which sorts identically. -/
structure SessionUsage where
  session_id : String
  project_path : String
  input_tokens : Int
  output_tokens : Int
  cache_creation_tokens : Int
  cache_read_tokens : Int
  total_cost : Rat
  last_activity : Int
  versions : List String
  models_used : List String
  model_breakdowns : List ModelBreakdown
deriving DecidableEq

/-- Build one `SessionUsage` row from one session's entries; the key is
split at its first colon back into project path and session id. -/
def mkSessionRow (k : String) (session_entries : List LoadedUsageEntry) : SessionUsage :=
  { session_id := (splitFirstColon k).2,
    project_path := (splitFirstColon k).1,
    input_tokens := (session_entries.map (fun e => e.input_tokens)).sum,
    output_tokens := (session_entries.map (fun e => e.output_tokens)).sum,
    cache_creation_tokens := (session_entries.map (fun e => e.cache_creation_tokens)).sum,
    cache_read_tokens := (session_entries.map (fun e => e.cache_read_tokens)).sum,
    total_cost := (session_entries.map calculate_entry_cost).sum,
    last_activity := ((maxByTimestamp session_entries).map
      (fun m => m.timestamp.fdiv 86400)).getD 0,
    versions := dedupFirst (session_entries.filterMap (fun e => e.version)),
    models_used := modelsUsed session_entries,
    model_breakdowns := aggregate_model_breakdowns session_entries }

/-- `UsageService.aggregate_by_session`: group by `project:session` key,
one row per session, sorted by last activity descending. -/
def aggregate_by_session (entries : List LoadedUsageEntry) : List SessionUsage :=
  sortBy (fun a b => decide (b.last_activity < a.last_activity))
    ((groupByKey sessionKey entries).map (fun p => mkSessionRow p.1 p.2))

/-! ### Public query methods (`usage_service.py`, date filter and limit) -/

/-- A Python `datetime` value as it reaches the date-filter comparisons of
`get_daily_usage`: the wall-clock instant in epoch seconds together with
its timezone-awareness.  The loader parses log timestamps with
`datetime.fromisoformat(ts.replace("Z", "+00:00"))`, which yields an
*aware* value for the `"Z"`-suffixed timestamps the log format carries,
while `datetime.strptime(date, "%Y-%m-%d")` yields a *naive* midnight. -/
structure PyTimestamp where
  instant : Int
  aware : Bool
deriving DecidableEq

/-- The two exceptions the date-filter stage of `get_daily_usage` can
raise: `typeErr` is Python's `TypeError` on comparing an offset-naive
with an offset-aware datetime, `valueErr` is the `ValueError` of
`strptime` on a malformed date string. -/
inductive PyError where
  | typeErr : PyError
  | valueErr : PyError
deriving DecidableEq

/-- Python `a <= b` on two datetimes: defined when both are naive or both
aware, raising `TypeError` on mixed awareness. -/
def pyDatetimeLe (a b : PyTimestamp) : Except PyError Bool :=
  if a.aware = b.aware then Except.ok (decide (a.instant ≤ b.instant))
  else Except.error PyError.typeErr

/-- Python `a < b` on two datetimes, same awareness rule. -/
def pyDatetimeLt (a b : PyTimestamp) : Except PyError Bool :=
  if a.aware = b.aware then Except.ok (decide (a.instant < b.instant))
  else Except.error PyError.typeErr

/-- A Python list-comprehension filter whose predicate may raise: the
first raising element aborts the whole comprehension with that error. -/
def pyFilter (p : PyTimestamp → Except PyError Bool) :
    List PyTimestamp → Except PyError (List PyTimestamp)
  | [] => Except.ok []
  | t :: ts =>
    match p t with
    | Except.error e => Except.error e
    | Except.ok keep =>
      match pyFilter p ts with
      | Except.error e => Except.error e
      | Except.ok rest => Except.ok (if keep then t :: rest else rest)

/-- The date-range filtering stage of `UsageService.get_daily_usage`
(source lines 704-710), faithful to Python's datetime semantics: bounds
are built naive by `strptime` (`start_date` midnight, inclusive;
`strptime(end_date) + 1 day`, exclusive), a malformed filter string
raises `ValueError`, and every comparison of an entry timestamp with a
bound follows the awareness rule, so a timezone-aware entry timestamp
raises `TypeError`.  Only the entries' timestamps reach this stage, so it
is stated over them. -/
def get_daily_usage_date_filter (timestamps : List PyTimestamp)
    (start_date end_date : Option String) : Except PyError (List PyTimestamp) :=
  match (match start_date with
         | none => Except.ok timestamps
         | some sd =>
           match parse_date sd with
           | none => Except.error PyError.valueErr
           | some ymd =>
             pyFilter
               (fun t =>
                 pyDatetimeLe ⟨daysFromCivil ymd.1 ymd.2.1 ymd.2.2 * 86400, false⟩ t)
               timestamps) with
  | Except.error e => Except.error e
  | Except.ok l1 =>
    match end_date with
    | none => Except.ok l1
    | some ed =>
      match parse_date ed with
      | none => Except.error PyError.valueErr
      | some ymd =>
        pyFilter
          (fun t =>
            pyDatetimeLt t ⟨(daysFromCivil ymd.1 ymd.2.1 ymd.2.2 + 1) * 86400, false⟩)
          l1

/-- `TokenCounts` response sub-object. -/
structure TokenCounts where
  input_tokens : Int
  output_tokens : Int
  cache_creation_tokens : Int
  cache_read_tokens : Int
deriving DecidableEq

/-- `SessionUsageListResponse`. -/
structure SessionUsageListResponse where
  data : List SessionUsage
  totals : TokenCounts
  total_cost : Rat
  total : Nat
deriving DecidableEq

/-- `UsageService.get_session_usage` (without the advisory cache layer,
which never changes the computed value): aggregate by session, record the
full session count, truncate to `limit`, and total the kept rows. -/
def get_session_usage (entries : List LoadedUsageEntry) (limit : Nat) :
    SessionUsageListResponse :=
  let session_data := aggregate_by_session entries
  let total := session_data.length
  let kept := session_data.take limit
  { data := kept,
    totals :=
      { input_tokens := (kept.map (fun s => s.input_tokens)).sum,
        output_tokens := (kept.map (fun s => s.output_tokens)).sum,
        cache_creation_tokens := (kept.map (fun s => s.cache_creation_tokens)).sum,
        cache_read_tokens := (kept.map (fun s => s.cache_read_tokens)).sum },
    total_cost := (kept.map (fun s => s.total_cost)).sum,
    total := total }

/-! ### Session blocks (`usage_service.py`, 5-hour billing periods) -/

/-- `UsageService.SESSION_DURATION_HOURS` in seconds. -/
def SESSION_DURATION_S : Int := 5 * 60 * 60

/-- `session_duration_ms` as computed in `identify_session_blocks`. -/
def SESSION_DURATION_MS : Int := 5 * 60 * 60 * 1000

/-- `SessionBlock` (id strings elided: a real block's id is its start time
and a gap's id is derived from the gap start, both kept here as the
`start_time` field). -/
structure SessionBlock where
  start_time : Int
  end_time : Int
  actual_end_time : Option Int
  is_active : Bool
  is_gap : Bool
  input_tokens : Int
  output_tokens : Int
  cache_creation_tokens : Int
  cache_read_tokens : Int
  cost_usd : Rat
  models : List String
  burn_rate_tokens_per_minute : Option Rat
  burn_rate_cost_per_hour : Option Rat
  projected_total_tokens : Option Int
  projected_total_cost : Option Rat
  remaining_minutes : Option Int
deriving DecidableEq

/-- `UsageService._floor_to_hour`: clear minutes/seconds/microseconds. -/
def floor_to_hour (t : Int) : Int := 3600 * t.fdiv 3600

/-- `UsageService._create_block`. -/
def create_block (start_time : Int) (entries : List LoadedUsageEntry) (now : Int) :
    SessionBlock :=
  let end_time := start_time + SESSION_DURATION_S
  let actual_end_time :=
    match entries.getLast? with
    | some le => le.timestamp
    | none => start_time
  let is_active : Bool :=
    decide (now - actual_end_time < SESSION_DURATION_S) && decide (now < end_time)
  let input_tokens := (entries.map (fun e => e.input_tokens)).sum
  let output_tokens := (entries.map (fun e => e.output_tokens)).sum
  let cache_creation := (entries.map (fun e => e.cache_creation_tokens)).sum
  let cache_read := (entries.map (fun e => e.cache_read_tokens)).sum
  let cost_usd := (entries.map calculate_entry_cost).sum
  let base : SessionBlock :=
    { start_time := start_time, end_time := end_time,
      actual_end_time := some actual_end_time,
      is_active := is_active, is_gap := false,
      input_tokens := input_tokens, output_tokens := output_tokens,
      cache_creation_tokens := cache_creation, cache_read_tokens := cache_read,
      cost_usd := cost_usd, models := modelsUsed entries,
      burn_rate_tokens_per_minute := none, burn_rate_cost_per_hour := none,
      projected_total_tokens := none, projected_total_cost := none,
      remaining_minutes := none }
  if is_active && decide (1 < entries.length) then
    let first_ts :=
      match entries.head? with
      | some fe => fe.timestamp
      | none => start_time
    let duration_minutes : Rat := ((actual_end_time - first_ts : Int) : Rat) / 60
    if 0 < duration_minutes then
      let total_tokens := input_tokens + output_tokens + cache_creation + cache_read
      let burn_rate_tokens : Rat := (total_tokens : Rat) / duration_minutes
      let burn_rate_cost : Rat := cost_usd / duration_minutes * 60
      let remaining_ms : Rat := ((end_time - now : Int) : Rat) * 1000
      let remaining_minutes : Int := max 0 (pyInt (remaining_ms / (1000 * 60)))
      let projected_additional_tokens : Rat := burn_rate_tokens * (remaining_minutes : Rat)
      let projected_tokens : Int := pyInt ((total_tokens : Rat) + projected_additional_tokens)
      let projected_additional_cost : Rat := burn_rate_cost / 60 * (remaining_minutes : Rat)
      let projected_cost : Rat := pyRound2 (cost_usd + projected_additional_cost)
      { base with
        burn_rate_tokens_per_minute := some burn_rate_tokens,
        burn_rate_cost_per_hour := some burn_rate_cost,
        projected_total_tokens := some projected_tokens,
        projected_total_cost := some projected_cost,
        remaining_minutes := some remaining_minutes }
    else base
  else base

/-- `UsageService._create_gap_block`. -/
def create_gap_block (last_activity next_activity : Int) : Option SessionBlock :=
  let gap_duration := next_activity - last_activity
  if gap_duration ≤ SESSION_DURATION_S then none
  else
    some
      { start_time := last_activity + SESSION_DURATION_S,
        end_time := next_activity,
        actual_end_time := none,
        is_active := false, is_gap := true,
        input_tokens := 0, output_tokens := 0,
        cache_creation_tokens := 0, cache_read_tokens := 0,
        cost_usd := 0, models := [],
        burn_rate_tokens_per_minute := none, burn_rate_cost_per_hour := none,
        projected_total_tokens := none, projected_total_cost := none,
        remaining_minutes := none }

/-- Loop state of `identify_session_blocks`: emitted blocks, the current
block's floored start (if one is open) and its entries in arrival order. -/
structure SegState where
  blocks : List SessionBlock
  cur_start : Option Int
  cur_entries : List LoadedUsageEntry
deriving DecidableEq

/-- One iteration of the `for entry in sorted_entries` loop of
`identify_session_blocks`. -/
def segStep (now : Int) (st : SegState) (e : LoadedUsageEntry) : SegState :=
  match st.cur_start with
  | none =>
    { st with cur_start := some (floor_to_hour e.timestamp), cur_entries := [e] }
  | some bs =>
    let time_since_start := (e.timestamp - bs) * 1000
    let time_since_last :=
      match st.cur_entries.getLast? with
      | some le => (e.timestamp - le.timestamp) * 1000
      | none => 0
    if SESSION_DURATION_MS < time_since_start ∨ SESSION_DURATION_MS < time_since_last then
      let closed := create_block bs st.cur_entries now
      let gaps :=
        match st.cur_entries.getLast? with
        | some le =>
          if SESSION_DURATION_MS < time_since_last then
            (create_gap_block le.timestamp e.timestamp).toList
          else []
        | none => []
      { blocks := st.blocks ++ [closed] ++ gaps,
        cur_start := some (floor_to_hour e.timestamp),
        cur_entries := [e] }
    else
      { st with cur_entries := st.cur_entries ++ [e] }

/-- `UsageService.identify_session_blocks` (`now` made an explicit
parameter in place of `datetime.now(timezone.utc)`). -/
def identify_session_blocks (now : Int) (entries : List LoadedUsageEntry) :
    List SessionBlock :=
  if entries.isEmpty then []
  else
    let sorted_entries := sortBy (fun a b => decide (a.timestamp < b.timestamp)) entries
    let fin := sorted_entries.foldl (segStep now) ⟨[], none, []⟩
    match fin.cur_start with
    | some bs =>
      if fin.cur_entries.isEmpty then fin.blocks
      else fin.blocks ++ [create_block bs fin.cur_entries now]
    | none => fin.blocks

/-! ### JSONL loader (`usage_service.py`, `parse_usage_from_jsonl`) -/

/-- The `usage` sub-object of an assistant message, after `json.loads`:
each counter is absent (`none`, so `usage.get(k, 0)` yields 0) or an int. -/
structure RawUsage where
  input_tokens : Option Int
  output_tokens : Option Int
  cache_creation_input_tokens : Option Int
  cache_read_input_tokens : Option Int
deriving DecidableEq

/-- The `message` sub-object of a log record.  `usage = none` covers both
an absent and an empty `usage` dict (both falsy in the source's
`if not usage` test); an absent `model` falls back to `"unknown"`. -/
structure RawMessage where
  usage : Option RawUsage
  model : Option String
deriving DecidableEq

/-- One parsed JSONL record (`obj` after `json.loads`); lines that fail
`json.loads` are skipped before this stage and are not represented. -/
structure RawRecord where
  typ : Option String
  message : Option RawMessage
  timestamp : Option String
  costUSD : Option Rat
  sessionId : Option String
  version : Option String
deriving DecidableEq

/-- The four token counters of a record as the loader reads them
(`usage.get(key, 0)` on whatever `usage` dict the record carries; a record
with no message or no usage dict reads as all zeros). -/
def recordTokens (r : RawRecord) : Int × Int × Int × Int :=
  match r.message with
  | none => (0, 0, 0, 0)
  | some msg =>
    match msg.usage with
    | none => (0, 0, 0, 0)
    | some u =>
      (u.input_tokens.getD 0, u.output_tokens.getD 0,
       u.cache_creation_input_tokens.getD 0, u.cache_read_input_tokens.getD 0)

/-- The per-line body of `parse_usage_from_jsonl`: skip non-assistant
records, records without a usage dict, records whose four token counts are
all zero, and records whose timestamp fails to parse; otherwise emit a
`LoadedUsageEntry`.  `parseTs` stands for
`datetime.fromisoformat(timestamp_str.replace("Z", "+00:00"))`, returning
`none` on the `ValueError`/`AttributeError` the source catches; `stem` is
the source file's stem, the fallback session id. -/
def parseRecord (parseTs : String → Option Int) (stem project_folder : String)
    (r : RawRecord) : Option LoadedUsageEntry :=
  if r.typ ≠ some "assistant" then none
  else
    match r.message with
    | none => none
    | some msg =>
      match msg.usage with
      | none => none
      | some u =>
        if u.input_tokens.getD 0 = 0 ∧ u.output_tokens.getD 0 = 0
            ∧ u.cache_creation_input_tokens.getD 0 = 0
            ∧ u.cache_read_input_tokens.getD 0 = 0 then
          none
        else
          match parseTs (r.timestamp.getD "") with
          | none => none
          | some t =>
            some
              { timestamp := t,
                input_tokens := u.input_tokens.getD 0,
                output_tokens := u.output_tokens.getD 0,
                cache_creation_tokens := u.cache_creation_input_tokens.getD 0,
                cache_read_tokens := u.cache_read_input_tokens.getD 0,
                cost_usd := r.costUSD,
                model := msg.model.getD "unknown",
                session_id :=
                  match r.sessionId with
                  | some s => if s = "" then stem else s
                  | none => stem,
                version := r.version,
                project_path := project_folder }

/-- `UsageService.parse_usage_from_jsonl` over the records of one file
(file I/O and the JSON decoding of individual lines abstracted away:
`records` are the successfully decoded line objects in file order). -/
def parse_usage_from_jsonl (parseTs : String → Option Int)
    (stem project_folder : String) (records : List RawRecord) :
    List LoadedUsageEntry :=
  records.filterMap (parseRecord parseTs stem project_folder)

/-! ### Per-session summary cache (`session_service.py`) -/

/-- What the cache's hash input depends on: `filepath.stat()` plus the
file's content, which the hash deliberately ignores. -/
structure FileInfo where
  size : Int
  mtime : Rat
  content : List String
deriving DecidableEq

/-- `SessionService.get_file_hash` computes
`md5(f"{stat.st_size}:{stat.st_mtime}")`.  Both the f-string encoding and
md5 are injective on the `(size, mtime)` pairs compared here (md5 modulo
collisions), and the hash is only ever compared for equality, so it is
modelled as the pair itself. -/
def get_file_hash (f : FileInfo) : Int × Rat := (f.size, f.mtime)

/-- `SESSION_CACHE_TTL`: `CACHE_TTL_MINUTES = 5`, in seconds. -/
def CACHE_TTL_S : Int := 5 * 60

/-- One row of the `SessionCache` table. -/
structure SessionCacheRec where
  session_id : String
  project_folder : String
  project_name : String
  summary : String
  modified_at : Int
  size_bytes : Int
  total_messages : Int
  total_tool_calls : Int
  cached_at : Int
  file_hash : Int × Rat
deriving DecidableEq

/-- `SessionSummary` as rebuilt from a cache row. -/
structure SessionSummary where
  id : String
  project_folder : String
  project_name : String
  summary : String
  modified_at : Int
  size_bytes : Int
  total_messages : Int
  total_tool_calls : Int
deriving DecidableEq

/-- `SessionService.get_cached_summary` (db row fetch and filesystem stat
abstracted to the values they produce: `cache_entry` is the row found for
`(session_id, project_folder)`, `file` is the live source file's stat, or
`none` when the file does not exist). -/
def get_cached_summary (now : Int) (cache_entry : Option SessionCacheRec)
    (file : Option FileInfo) : Option SessionSummary :=
  match cache_entry with
  | none => none
  | some ce =>
    if CACHE_TTL_S < now - ce.cached_at then none
    else
      match file with
      | none => none
      | some f =>
        if get_file_hash f ≠ ce.file_hash then none
        else
          some
            { id := ce.session_id,
              project_folder := ce.project_folder,
              project_name := ce.project_name,
              summary := ce.summary,
              modified_at := ce.modified_at,
              size_bytes := ce.size_bytes,
              total_messages := ce.total_messages,
              total_tool_calls := ce.total_tool_calls }

/-! ### Helper lemmas -/

theorem mem_insertSorted {α : Type} (lt : α → α → Bool) (x a : α) (l : List α) :
    a ∈ insertSorted lt x l ↔ a = x ∨ a ∈ l := by
  induction l with
  | nil => simp [insertSorted]
  | cons y ys ih =>
    by_cases h : lt x y = true
    · simp [insertSorted, h]
    · simp [insertSorted, h, ih]
      tauto

theorem length_insertSorted {α : Type} (lt : α → α → Bool) (x : α) (l : List α) :
    (insertSorted lt x l).length = l.length + 1 := by
  induction l with
  | nil => simp [insertSorted]
  | cons y ys ih =>
    by_cases h : lt x y = true
    · simp [insertSorted, h]
    · simp [insertSorted, h, ih]

theorem mem_sortBy_aux {α : Type} (lt : α → α → Bool) (a : α) (l acc : List α) :
    a ∈ l.foldl (fun acc x => insertSorted lt x acc) acc ↔ a ∈ acc ∨ a ∈ l := by
  induction l generalizing acc with
  | nil => simp
  | cons x xs ih =>
    simp only [List.foldl_cons, ih, mem_insertSorted, List.mem_cons]
    tauto

theorem mem_sortBy {α : Type} (lt : α → α → Bool) (a : α) (l : List α) :
    a ∈ sortBy lt l ↔ a ∈ l := by
  simp [sortBy, mem_sortBy_aux]

theorem length_sortBy_aux {α : Type} (lt : α → α → Bool) (l acc : List α) :
    (l.foldl (fun acc x => insertSorted lt x acc) acc).length = acc.length + l.length := by
  induction l generalizing acc with
  | nil => simp
  | cons x xs ih =>
    simp only [List.foldl_cons, List.length_cons]
    rw [ih, length_insertSorted]
    omega

theorem length_sortBy {α : Type} (lt : α → α → Bool) (l : List α) :
    (sortBy lt l).length = l.length := by
  simp [sortBy, length_sortBy_aux]

theorem mem_dedupFirst_aux {K : Type} [DecidableEq K] (a : K) (l acc : List K) :
    a ∈ l.foldl (fun acc k => if k ∈ acc then acc else acc ++ [k]) acc ↔
      a ∈ acc ∨ a ∈ l := by
  induction l generalizing acc with
  | nil => simp
  | cons k ks ih =>
    by_cases h : k ∈ acc
    · simp only [List.foldl_cons, if_pos h, ih, List.mem_cons]
      constructor
      · tauto
      · rintro (ha | rfl | ha) <;> tauto
    · simp only [List.foldl_cons, if_neg h, ih, List.mem_append, List.mem_cons,
        List.mem_singleton]
      tauto

theorem mem_dedupFirst {K : Type} [DecidableEq K] (a : K) (l : List K) :
    a ∈ dedupFirst l ↔ a ∈ l := by
  simp [dedupFirst, mem_dedupFirst_aux]

theorem nodup_dedupFirst_aux {K : Type} [DecidableEq K] (l acc : List K)
    (hacc : acc.Nodup) :
    (l.foldl (fun acc k => if k ∈ acc then acc else acc ++ [k]) acc).Nodup := by
  induction l generalizing acc with
  | nil => simpa
  | cons k ks ih =>
    by_cases h : k ∈ acc
    · simpa only [List.foldl_cons, if_pos h] using ih acc hacc
    · refine ?_
      simp only [List.foldl_cons, if_neg h]
      apply ih
      simp [List.nodup_append, hacc, h]

theorem nodup_dedupFirst {K : Type} [DecidableEq K] (l : List K) :
    (dedupFirst l).Nodup := by
  exact nodup_dedupFirst_aux l [] (by simp)

theorem mem_groupByKey {K : Type} [DecidableEq K] (key : LoadedUsageEntry → K)
    (entries : List LoadedUsageEntry) (p : K × List LoadedUsageEntry)
    (hp : p ∈ groupByKey key entries) :
    p.1 ∈ entries.map key ∧
      p.2 = entries.filter (fun e => decide (key e = p.1)) := by
  simp only [groupByKey, List.mem_map] at hp
  obtain ⟨k, hk, rfl⟩ := hp
  exact ⟨(mem_dedupFirst k _).1 hk, rfl⟩

theorem length_groupByKey {K : Type} [DecidableEq K] (key : LoadedUsageEntry → K)
    (entries : List LoadedUsageEntry) :
    (groupByKey key entries).length = (dedupFirst (entries.map key)).length := by
  simp [groupByKey]

theorem splitOnceChar_of_mem (c : Char) (l : List Char) (h : c ∈ l) :
    ∃ a b, splitOnceChar c l = some (a, b) ∧ a ++ c :: b = l := by
  induction l with
  | nil => simp at h
  | cons x xs ih =>
    by_cases hx : x = c
    · subst hx
      exact ⟨[], xs, by simp [splitOnceChar], rfl⟩
    · have hxs : c ∈ xs := by
        rcases List.mem_cons.1 h with h1 | h1
        · exact absurd h1.symm hx
        · exact h1
      obtain ⟨a, b, hsplit, happ⟩ := ih hxs
      refine ⟨x :: a, b, ?_, by simp [happ]⟩
      simp [splitOnceChar, hx, hsplit]

theorem splitFirstColon_rejoin (s : String) (h : ':' ∈ s.data) :
    (splitFirstColon s).1 ++ ":" ++ (splitFirstColon s).2 = s := by
  obtain ⟨a, b, hsplit, happ⟩ := splitOnceChar_of_mem ':' s.data h
  have hdata : (":" : String).data = [':'] := rfl
  cases s with
  | mk data =>
    simp only [splitFirstColon, hsplit]
    show String.mk (a ++ [':'] ++ b) = String.mk data
    simp only [List.append_assoc, List.singleton_append]
    exact congrArg String.mk happ

theorem model_bdAdd (b : ModelBreakdown) (e : LoadedUsageEntry) :
    (bdAdd b e).model = b.model := rfl

theorem map_model_bdUpdate (acc : List ModelBreakdown) (e : LoadedUsageEntry) :
    (bdUpdate acc e).map (fun b => b.model)
      = if e.model ∈ acc.map (fun b => b.model) then acc.map (fun b => b.model)
        else acc.map (fun b => b.model) ++ [e.model] := by
  by_cases h : acc.any (fun b => b.model == e.model) = true
  · have hm : e.model ∈ acc.map (fun b => b.model) := by
      simp only [List.any_eq_true, beq_iff_eq] at h
      obtain ⟨b, hb, he⟩ := h
      exact List.mem_map.2 ⟨b, hb, he⟩
    simp only [bdUpdate, if_pos h, if_pos hm, List.map_map]
    apply List.map_congr_left
    intro b _
    simp only [Function.comp]
    by_cases hb : (b.model == e.model) = true
    · simp [hb, model_bdAdd]
    · simp [hb]
  · have hm : e.model ∉ acc.map (fun b => b.model) := by
      simp only [List.any_eq_true, beq_iff_eq] at h
      simp only [List.mem_map]
      rintro ⟨b, hb, he⟩
      exact h ⟨b, hb, he⟩
    simp [bdUpdate, h, hm, model_bdAdd, bdZero]

theorem map_model_foldl_bdUpdate (l : List LoadedUsageEntry) (acc : List ModelBreakdown) :
    (l.foldl bdUpdate acc).map (fun b => b.model)
      = (l.map (fun e => e.model)).foldl
          (fun ks m => if m ∈ ks then ks else ks ++ [m])
          (acc.map (fun b => b.model)) := by
  induction l generalizing acc with
  | nil => simp
  | cons e es ih =>
    simp only [List.foldl_cons, List.map_cons, ih, map_model_bdUpdate]

theorem map_model_aggregate_model_breakdowns (entries : List LoadedUsageEntry) :
    (aggregate_model_breakdowns entries).map (fun b => b.model)
      = dedupFirst (entries.map (fun e => e.model)) := by
  simpa using map_model_foldl_bdUpdate entries []

/-! ### Claims -/

/-- C2: `calculate_tiered_cost` returns 0 for `total_tokens ≤ 0`; above the
200k threshold with a tiered rate it bills 200k tokens at the base rate
(0 if absent) plus the excess at the tiered rate; otherwise all tokens at
the base rate (0 if absent).  `calculate_cost` is the sum of the four
independent tiered costs for the resolved pricing table's category rates,
and 0 when the model is unspecified or no pricing table resolves. -/
theorem C2_tiered_pricing :
    (∀ (t threshold : Int) (b tr : Option Rat), t ≤ 0 →
        calculate_tiered_cost t b tr threshold = 0)
  ∧ (∀ (t : Int) (b : Option Rat) (r : Rat), TIERED_THRESHOLD < t →
        calculate_tiered_cost t b (some r) TIERED_THRESHOLD
          = 200000 * b.getD 0 + ((t : Rat) - 200000) * r)
  ∧ (∀ (t : Int) (b tr : Option Rat), 0 < t →
        ¬(TIERED_THRESHOLD < t ∧ tr.isSome = true) →
        calculate_tiered_cost t b tr TIERED_THRESHOLD = (t : Rat) * b.getD 0)
  ∧ (∀ i o cc cr : Int, calculate_cost i o cc cr none = 0)
  ∧ (∀ (i o cc cr : Int) (m : String),
        calculate_cost i o cc cr (some m)
          = (get_model_pricing m).elim 0 (fun p =>
              calculate_tiered_cost i p.input p.input_above_200k TIERED_THRESHOLD
            + calculate_tiered_cost o p.output p.output_above_200k TIERED_THRESHOLD
            + calculate_tiered_cost cc p.cache_creation p.cache_creation_above_200k
                TIERED_THRESHOLD
            + calculate_tiered_cost cr p.cache_read p.cache_read_above_200k
                TIERED_THRESHOLD)) := by
  refine ⟨?_, ?_, ?_, ?_, ?_⟩
  · intro t threshold b tr ht
    simp [calculate_tiered_cost, ht]
  · intro t b r ht
    simp only [TIERED_THRESHOLD] at ht ⊢
    have hmin : min t (200000 : Int) = 200000 := by omega
    have hmax : max (0 : Int) (t - 200000) = t - 200000 := by omega
    unfold calculate_tiered_cost
    split_ifs with hA hB
    · omega
    · cases b with
      | none =>
        simp only [hmax, Option.getD_some, Option.getD_none]
        push_cast
        ring
      | some bp =>
        simp only [hmin, hmax, Option.getD_some]
        push_cast
        ring
    · exact absurd ⟨ht, rfl⟩ hB
  · intro t b tr ht hnot
    have h0 : ¬(t ≤ 0) := by omega
    cases b with
    | none => simp [calculate_tiered_cost, h0, hnot]
    | some bp => simp [calculate_tiered_cost, h0, hnot]
  · intro i o cc cr
    rfl
  · intro i o cc cr m
    simp only [calculate_cost]
    cases get_model_pricing m with
    | none => rfl
    | some p => rfl

/-- Witness for C2 at concrete inputs. -/
theorem C2_tiered_pricing_witness :
    calculate_tiered_cost (-5) none none 200000 = 0
  ∧ calculate_tiered_cost 250000 (some 1) (some 2) TIERED_THRESHOLD
      = 200000 * (some (1 : Rat)).getD 0 + (((250000 : Int) : Rat) - 200000) * 2
  ∧ calculate_tiered_cost 100 (some 3) none TIERED_THRESHOLD
      = ((100 : Int) : Rat) * (some (3 : Rat)).getD 0 :=
  ⟨C2_tiered_pricing.1 (-5) 200000 none none (by decide),
   C2_tiered_pricing.2.1 250000 (some 1) 2 (by decide),
   C2_tiered_pricing.2.2.1 100 (some 3) none (by decide) (by decide)⟩

theorem data_strAppend (s t : String) : (s ++ t).data = s.data ++ t.data := by
  cases s
  cases t
  rfl

theorem colon_mem_sessionKey (e : LoadedUsageEntry) : ':' ∈ (sessionKey e).data := by
  simp [sessionKey, data_strAppend]

/-- An entry whose 150000 input tokens sit below the tiered threshold,
while two of them together straddle it. -/
def straddleEntry : LoadedUsageEntry :=
  { timestamp := 0, input_tokens := 150000, output_tokens := 0,
    cache_creation_tokens := 0, cache_read_tokens := 0, cost_usd := none,
    model := "claude-opus-4-20250514", session_id := "s", version := none,
    project_path := "p" }

theorem cost_straddleEntry : calculate_entry_cost straddleEntry = 9/4 := by
  have h : get_model_pricing "claude-opus-4-20250514"
      = some
        { input := some ((15 : Rat) / 1000000),
          output := some ((75 : Rat) / 1000000),
          cache_creation := some ((1875 : Rat) / 100 / 1000000),
          cache_read := some ((150 : Rat) / 100 / 1000000),
          input_above_200k := some ((30 : Rat) / 1000000),
          output_above_200k := some ((11250 : Rat) / 100 / 1000000),
          cache_creation_above_200k := some ((3750 : Rat) / 100 / 1000000),
          cache_read_above_200k := some ((300 : Rat) / 100 / 1000000) } := rfl
  rw [calculate_entry_cost]
  show calculate_cost 150000 0 0 0 (some "claude-opus-4-20250514") = 9/4
  rw [calculate_cost, h]
  norm_num [calculate_tiered_cost, TIERED_THRESHOLD]

theorem cost_of_straddled_sum :
    calculate_cost 300000 0 0 0 (some "claude-opus-4-20250514") = 6 := by
  have h : get_model_pricing "claude-opus-4-20250514"
      = some
        { input := some ((15 : Rat) / 1000000),
          output := some ((75 : Rat) / 1000000),
          cache_creation := some ((1875 : Rat) / 100 / 1000000),
          cache_read := some ((150 : Rat) / 100 / 1000000),
          input_above_200k := some ((30 : Rat) / 1000000),
          output_above_200k := some ((11250 : Rat) / 100 / 1000000),
          cache_creation_above_200k := some ((3750 : Rat) / 100 / 1000000),
          cache_read_above_200k := some ((300 : Rat) / 100 / 1000000) } := rfl
  rw [calculate_cost, h]
  norm_num [calculate_tiered_cost, TIERED_THRESHOLD]

/-- C1: every daily, monthly and session aggregate row's `total_cost` is
the sum of the per-entry costs over that row's partition of the input
entries (the per-entry cost being `cost_usd` when present, else the
pricing service's cost for that single entry), and it differs from the
tiered cost of the partition's summed token counts when entries straddle
the 200k threshold: two 150k-input-token entries aggregate to cost 9/2,
while the tiered cost of their 300k token sum is 6. -/
theorem C1_aggregate_cost_is_entry_cost_sum :
    (∀ (entries : List LoadedUsageEntry) (i : Nat)
        (h : i < (aggregate_by_daily entries).length),
        ((aggregate_by_daily entries).get ⟨i, h⟩).total_cost
          = ((entries.filter (fun e =>
              decide (dayKey e = ((aggregate_by_daily entries).get ⟨i, h⟩).date))).map
              calculate_entry_cost).sum)
  ∧ (∀ (entries : List LoadedUsageEntry) (i : Nat)
        (h : i < (aggregate_by_monthly entries).length),
        ((aggregate_by_monthly entries).get ⟨i, h⟩).total_cost
          = ((entries.filter (fun e =>
              decide (monthKey e = ((aggregate_by_monthly entries).get ⟨i, h⟩).month))).map
              calculate_entry_cost).sum)
  ∧ (∀ (entries : List LoadedUsageEntry) (i : Nat)
        (h : i < (aggregate_by_session entries).length),
        ((aggregate_by_session entries).get ⟨i, h⟩).total_cost
          = ((entries.filter (fun e =>
              decide (sessionKey e
                = ((aggregate_by_session entries).get ⟨i, h⟩).project_path ++ ":"
                  ++ ((aggregate_by_session entries).get ⟨i, h⟩).session_id))).map
              calculate_entry_cost).sum)
  ∧ ((aggregate_by_daily [straddleEntry, straddleEntry]).map (fun r => r.total_cost)
        = [(9 : Rat) / 2]
      ∧ calculate_cost 300000 0 0 0 (some "claude-opus-4-20250514") = 6
      ∧ ((9 : Rat) / 2) ≠ 6) := by
  refine ⟨?_, ?_, ?_, ?_, cost_of_straddled_sum, by norm_num⟩
  · intro entries i h
    have hrow : (aggregate_by_daily entries).get ⟨i, h⟩ ∈ aggregate_by_daily entries :=
      List.get_mem _ _ _
    generalize hR : (aggregate_by_daily entries).get ⟨i, h⟩ = row at hrow ⊢
    rw [aggregate_by_daily, mem_sortBy] at hrow
    obtain ⟨p, hp, hpe⟩ := List.mem_map.1 hrow
    obtain ⟨-, hfilter⟩ := mem_groupByKey dayKey entries p hp
    subst hpe
    simp only [mkDailyRow]
    rw [hfilter]
  · intro entries i h
    have hrow : (aggregate_by_monthly entries).get ⟨i, h⟩ ∈ aggregate_by_monthly entries :=
      List.get_mem _ _ _
    generalize hR : (aggregate_by_monthly entries).get ⟨i, h⟩ = row at hrow ⊢
    rw [aggregate_by_monthly, mem_sortBy] at hrow
    obtain ⟨p, hp, hpe⟩ := List.mem_map.1 hrow
    obtain ⟨-, hfilter⟩ := mem_groupByKey monthKey entries p hp
    subst hpe
    simp only [mkMonthlyRow]
    rw [hfilter]
  · intro entries i h
    have hrow : (aggregate_by_session entries).get ⟨i, h⟩ ∈ aggregate_by_session entries :=
      List.get_mem _ _ _
    generalize hR : (aggregate_by_session entries).get ⟨i, h⟩ = row at hrow ⊢
    rw [aggregate_by_session, mem_sortBy] at hrow
    obtain ⟨p, hp, hpe⟩ := List.mem_map.1 hrow
    obtain ⟨hkmem, hfilter⟩ := mem_groupByKey sessionKey entries p hp
    have hcolon : ':' ∈ p.1.data := by
      obtain ⟨e, -, hke⟩ := List.mem_map.1 hkmem
      rw [← hke]
      exact colon_mem_sessionKey e
    subst hpe
    have hkey : (mkSessionRow p.1 p.2).project_path ++ ":" ++ (mkSessionRow p.1 p.2).session_id
        = p.1 := by
      show (splitFirstColon p.1).1 ++ ":" ++ (splitFirstColon p.1).2 = p.1
      exact splitFirstColon_rejoin p.1 hcolon
    rw [hkey]
    simp only [mkSessionRow]
    rw [hfilter]
  · have hcost := cost_straddleEntry
    have hday : dayKey straddleEntry = 0 := by decide
    simp [aggregate_by_daily, groupByKey, dedupFirst, sortBy, insertSorted, mkDailyRow,
      hday, hcost, List.filter]
    norm_num [hcost]

/-- Witness for C1 at a concrete entry list. -/
theorem C1_aggregate_cost_witness :
    ((aggregate_by_daily [straddleEntry]).get ⟨0, by decide⟩).total_cost
      = (([straddleEntry].filter (fun e =>
          decide (dayKey e
            = ((aggregate_by_daily [straddleEntry]).get ⟨0, by decide⟩).date))).map
          calculate_entry_cost).sum
  ∧ ((aggregate_by_monthly [straddleEntry]).get ⟨0, by decide⟩).total_cost
      = (([straddleEntry].filter (fun e =>
          decide (monthKey e
            = ((aggregate_by_monthly [straddleEntry]).get ⟨0, by decide⟩).month))).map
          calculate_entry_cost).sum
  ∧ ((aggregate_by_session [straddleEntry]).get ⟨0, by decide⟩).total_cost
      = (([straddleEntry].filter (fun e =>
          decide (sessionKey e
            = ((aggregate_by_session [straddleEntry]).get ⟨0, by decide⟩).project_path ++ ":"
              ++ ((aggregate_by_session [straddleEntry]).get ⟨0, by decide⟩).session_id))).map
          calculate_entry_cost).sum :=
  ⟨C1_aggregate_cost_is_entry_cost_sum.1 [straddleEntry] 0 (by decide),
   C1_aggregate_cost_is_entry_cost_sum.2.1 [straddleEntry] 0 (by decide),
   C1_aggregate_cost_is_entry_cost_sum.2.2.1 [straddleEntry] 0 (by decide)⟩

/-- Lexicographic order on character lists (the order Python `sorted` uses
on strings), for stating the claimed "sorted by model name" property. -/
def charListLe : List Char → List Char → Bool
  | [], _ => true
  | _ :: _, [] => false
  | a :: as, b :: bs => if a < b then true else if a = b then charListLe as bs else false

/-- String order for model names. -/
def strLe (a b : String) : Bool := charListLe a.data b.data

/-- "Sorted by model name", as the specification asserts of the
`ModelBreakdown` output list. -/
def sortedByModelName (l : List ModelBreakdown) : Prop :=
  List.Pairwise (fun a b => strLe a.model b.model = true) l

/-- An entry with model `"b"`. -/
def bModelEntry : LoadedUsageEntry :=
  { timestamp := 0, input_tokens := 1, output_tokens := 0,
    cache_creation_tokens := 0, cache_read_tokens := 0, cost_usd := some 0,
    model := "b", session_id := "s", version := none, project_path := "p" }

/-- An entry with model `"a"`. -/
def aModelEntry : LoadedUsageEntry :=
  { timestamp := 0, input_tokens := 1, output_tokens := 0,
    cache_creation_tokens := 0, cache_read_tokens := 0, cost_usd := some 0,
    model := "a", session_id := "s", version := none, project_path := "p" }

/-- C8 counterexample: on entries whose models appear in the order
`"b"`, `"a"`, the model-breakdown rows come out in first-appearance order
`["b", "a"]`, which is not sorted by model name — refuting the claim's
"sorted by model name" ordering. -/
theorem C8_counterexample_not_sorted :
    ((aggregate_model_breakdowns [bModelEntry, aModelEntry]).map (fun b => b.model)
        = ["b", "a"])
  ∧ ¬ sortedByModelName (aggregate_model_breakdowns [bModelEntry, aModelEntry]) := by
  constructor
  · decide
  · unfold sortedByModelName
    decide

/-- C8 amended: the model-breakdown list has exactly one row per distinct
model seen, and its order is deterministic — the models in order of first
appearance in the entry list (Python dict insertion order), not sorted by
model name. -/
theorem C8_breakdown_rows_amended :
    ∀ entries : List LoadedUsageEntry,
    ((aggregate_model_breakdowns entries).map (fun b => b.model)
        = dedupFirst (entries.map (fun e => e.model)))
  ∧ ((aggregate_model_breakdowns entries).map (fun b => b.model)).Nodup
  ∧ (∀ m : String,
      m ∈ (aggregate_model_breakdowns entries).map (fun b => b.model) ↔
        m ∈ entries.map (fun e => e.model)) := by
  intro entries
  refine ⟨map_model_aggregate_model_breakdowns entries, ?_, ?_⟩
  · rw [map_model_aggregate_model_breakdowns]
    exact nodup_dedupFirst _
  · intro m
    rw [map_model_aggregate_model_breakdowns]
    exact mem_dedupFirst m _

/-- Entry in session `"sa"` on epoch day 0. -/
def sessAEntry : LoadedUsageEntry :=
  { timestamp := 0, input_tokens := 1, output_tokens := 0,
    cache_creation_tokens := 0, cache_read_tokens := 0, cost_usd := some 1,
    model := "m", session_id := "sa", version := none, project_path := "p" }

/-- Entry in session `"sb"` on epoch day 2. -/
def sessBEntry : LoadedUsageEntry :=
  { timestamp := 172800, input_tokens := 1, output_tokens := 0,
    cache_creation_tokens := 0, cache_read_tokens := 0, cost_usd := some 2,
    model := "m", session_id := "sb", version := none, project_path := "p" }

/-- C10: `get_session_usage` reports `total` as the number of all distinct
`project_path:session_id` partitions, while its `totals` token counts and
`total_cost` are sums over only the first `limit` session rows; with two
sessions and `limit = 1`, `total` is 2 but only one row is totalled. -/
theorem C10_session_limit_totals :
    (∀ (entries : List LoadedUsageEntry) (limit : Nat),
        (get_session_usage entries limit).total
            = (dedupFirst (entries.map sessionKey)).length
      ∧ (get_session_usage entries limit).data
            = (aggregate_by_session entries).take limit
      ∧ (get_session_usage entries limit).totals.input_tokens
            = ((get_session_usage entries limit).data.map (fun s => s.input_tokens)).sum
      ∧ (get_session_usage entries limit).totals.output_tokens
            = ((get_session_usage entries limit).data.map (fun s => s.output_tokens)).sum
      ∧ (get_session_usage entries limit).totals.cache_creation_tokens
            = ((get_session_usage entries limit).data.map
                (fun s => s.cache_creation_tokens)).sum
      ∧ (get_session_usage entries limit).totals.cache_read_tokens
            = ((get_session_usage entries limit).data.map (fun s => s.cache_read_tokens)).sum
      ∧ (get_session_usage entries limit).total_cost
            = ((get_session_usage entries limit).data.map (fun s => s.total_cost)).sum)
  ∧ ((get_session_usage [sessAEntry, sessBEntry] 1).total = 2
      ∧ (get_session_usage [sessAEntry, sessBEntry] 1).data.length = 1) := by
  constructor
  · intro entries limit
    refine ⟨?_, rfl, rfl, rfl, rfl, rfl, rfl⟩
    show (aggregate_by_session entries).length = _
    rw [aggregate_by_session, length_sortBy, List.length_map, length_groupByKey]
  · exact ⟨by decide, by decide⟩

/-- C9 (code bug): the claimed inclusive-start/exclusive-end filtering is
the intent, but the code does not deliver it on its own data: the loader's
timestamps are timezone-aware (parsed from the `"Z"`-suffixed log format)
while the `strptime` bounds are naive, so with a valid `start_date` or
`end_date` and any aware entry timestamp the comparison raises
`TypeError` instead of filtering.  Evaluated at the failing input (one
aware timestamp, date `"2024-03-05"`), both filter directions raise;
on naive timestamps — the only way the comparisons are defined — the
filter does keep exactly the entries strictly before the start of the day
after `end_date`, confirming the claimed bound as the code's evident
intent. -/
theorem C9_date_filter_type_error :
    get_daily_usage_date_filter [⟨0, true⟩] (some "2024-03-05") none
        = Except.error PyError.typeErr
  ∧ get_daily_usage_date_filter [⟨0, true⟩] none (some "2024-03-05")
        = Except.error PyError.typeErr
  ∧ get_daily_usage_date_filter [⟨0, false⟩, ⟨1767225600, false⟩] none (some "2024-03-05")
        = Except.ok [⟨0, false⟩]
  ∧ get_daily_usage_date_filter [⟨0, false⟩, ⟨1767225600, false⟩] (some "2024-03-05") none
        = Except.ok [⟨1767225600, false⟩] := by
  refine ⟨rfl, rfl, rfl, rfl⟩

theorem parseRecord_none_of_zero (parseTs : String → Option Int) (stem pf : String)
    (r : RawRecord) (h : recordTokens r = (0, 0, 0, 0)) :
    parseRecord parseTs stem pf r = none := by
  unfold parseRecord
  split
  · rfl
  · cases hm : r.message with
    | none => simp [hm]
    | some msg =>
      cases hu : msg.usage with
      | none => simp [hm, hu]
      | some u =>
        have hz : u.input_tokens.getD 0 = 0 ∧ u.output_tokens.getD 0 = 0
            ∧ u.cache_creation_input_tokens.getD 0 = 0
            ∧ u.cache_read_input_tokens.getD 0 = 0 := by
          simp only [recordTokens, hm, hu] at h
          simpa [Prod.ext_iff] using h
        simp [hm, hu, hz.1, hz.2.1, hz.2.2.1, hz.2.2.2]

/-- C6: the loader emits an entry only when at least one of the four token
counts is non-zero, and a file whose records all carry four zero token
counts loads to the empty entry list. -/
theorem C6_loader_discards_zero_entries :
    ∀ (parseTs : String → Option Int) (stem pf : String) (records : List RawRecord),
    (∀ e ∈ parse_usage_from_jsonl parseTs stem pf records,
        ¬(e.input_tokens = 0 ∧ e.output_tokens = 0 ∧ e.cache_creation_tokens = 0
          ∧ e.cache_read_tokens = 0))
  ∧ ((∀ r ∈ records, recordTokens r = (0, 0, 0, 0)) →
      parse_usage_from_jsonl parseTs stem pf records = []) := by
  intro parseTs stem pf records
  constructor
  · intro e he
    simp only [parse_usage_from_jsonl, List.mem_filterMap] at he
    obtain ⟨r, _, hpe⟩ := he
    unfold parseRecord at hpe
    repeat' split at hpe
    all_goals
      first
        | exact Option.noConfusion hpe
        | (injection hpe with h9; subst h9; simp_all)
  · intro hall
    induction records with
    | nil => rfl
    | cons r rs ih =>
      have h1 : parseRecord parseTs stem pf r = none :=
        parseRecord_none_of_zero parseTs stem pf r (hall r (by simp))
      have h2 := ih (fun x hx => hall x (by simp [hx]))
      simp only [parse_usage_from_jsonl, List.filterMap_cons, h1]
      exact h2

/-- An assistant record with a non-zero input token count. -/
def rawNonzeroRecord : RawRecord :=
  { typ := some "assistant",
    message := some
      { usage := some
          { input_tokens := some 5, output_tokens := none,
            cache_creation_input_tokens := none, cache_read_input_tokens := none },
        model := some "m" },
    timestamp := some "t", costUSD := none, sessionId := some "sid", version := none }

/-- An assistant record whose four token counts all read as zero. -/
def rawZeroRecord : RawRecord :=
  { typ := some "assistant",
    message := some
      { usage := some
          { input_tokens := some 0, output_tokens := some 0,
            cache_creation_input_tokens := none, cache_read_input_tokens := none },
        model := some "m" },
    timestamp := some "t", costUSD := none, sessionId := some "sid", version := none }

/-- The entry the loader produces from `rawNonzeroRecord`. -/
def loadedNonzeroEntry : LoadedUsageEntry :=
  { timestamp := 0, input_tokens := 5, output_tokens := 0,
    cache_creation_tokens := 0, cache_read_tokens := 0, cost_usd := none,
    model := "m", session_id := "sid", version := none, project_path := "p" }

/-- Witness for C6 at concrete records. -/
theorem C6_loader_discards_zero_entries_witness :
    ¬(loadedNonzeroEntry.input_tokens = 0 ∧ loadedNonzeroEntry.output_tokens = 0
      ∧ loadedNonzeroEntry.cache_creation_tokens = 0
      ∧ loadedNonzeroEntry.cache_read_tokens = 0)
  ∧ parse_usage_from_jsonl (fun _ => some 0) "f" "p" [rawZeroRecord] = [] :=
  ⟨(C6_loader_discards_zero_entries (fun _ => some 0) "f" "p" [rawNonzeroRecord]).1
      loadedNonzeroEntry (by decide),
   (C6_loader_discards_zero_entries (fun _ => some 0) "f" "p" [rawZeroRecord]).2
      (by decide)⟩

/-- C7: a stored per-session cache row yields a cached summary exactly when
its age is at most 5 minutes and the live source file exists with a
content hash — a function of file size and modification time only, never
of the file's content — equal to the stored one; TTL expiry or a hash
mismatch yields no cached result. -/
theorem C7_session_cache_validity :
    ∀ (now : Int) (ce : SessionCacheRec) (file : Option FileInfo),
    ((get_cached_summary now (some ce) file).isSome = true ↔
      (now - ce.cached_at ≤ CACHE_TTL_S
        ∧ ∃ f, file = some f ∧ get_file_hash f = ce.file_hash))
  ∧ (∀ f g : FileInfo, f.size = g.size → f.mtime = g.mtime →
      get_file_hash f = get_file_hash g) := by
  intro now ce file
  constructor
  · constructor
    · intro hs
      by_cases h1 : CACHE_TTL_S < now - ce.cached_at
      · simp [get_cached_summary, h1] at hs
      · cases hf : file with
        | none => simp [get_cached_summary, h1, hf] at hs
        | some f =>
          by_cases h2 : get_file_hash f = ce.file_hash
          · exact ⟨by omega, f, rfl, h2⟩
          · simp [get_cached_summary, h1, hf, h2] at hs
    · rintro ⟨h1, f, rfl, h2⟩
      simp [get_cached_summary, h2, not_lt.2 h1]
  · intro f g h1 h2
    rw [get_file_hash, get_file_hash, h1, h2]

/-- A concrete cache row for the C7 witness. -/
def cacheRowW : SessionCacheRec :=
  { session_id := "sid", project_folder := "proj", project_name := "proj",
    summary := "sum", modified_at := 0, size_bytes := 10, total_messages := 1,
    total_tool_calls := 0, cached_at := 0, file_hash := (10, 7) }

/-- Witness for C7: the hash ignores file content, and a fresh row with a
matching hash is served from cache. -/
theorem C7_session_cache_validity_witness :
    get_file_hash { size := 10, mtime := 7, content := ["old"] }
      = get_file_hash { size := 10, mtime := 7, content := ["new"] }
  ∧ ((get_cached_summary 60 (some cacheRowW)
        (some { size := 10, mtime := 7, content := ["old"] })).isSome = true ↔
      (60 - cacheRowW.cached_at ≤ CACHE_TTL_S
        ∧ ∃ f, (some { size := 10, mtime := 7, content := ["old"] } : Option FileInfo)
            = some f ∧ get_file_hash f = cacheRowW.file_hash)) :=
  ⟨(C7_session_cache_validity 60 cacheRowW
      (some { size := 10, mtime := 7, content := ["old"] })).2
      { size := 10, mtime := 7, content := ["old"] }
      { size := 10, mtime := 7, content := ["new"] } (by decide) (by decide),
   (C7_session_cache_validity 60 cacheRowW
      (some { size := 10, mtime := 7, content := ["old"] })).1⟩

theorem is_active_create_block (s : Int) (entries : List LoadedUsageEntry) (now : Int) :
    (create_block s entries now).is_active
      = (decide (now - (match entries.getLast? with
            | some le => le.timestamp
            | none => s) < SESSION_DURATION_S)
          && decide (now < s + SESSION_DURATION_S)) := by
  cases hl : entries.getLast? with
  | none =>
    simp only [create_block, hl]
    split
    · split
      · rfl
      · rfl
    · rfl
  | some le =>
    simp only [create_block, hl]
    split
    · split
      · rfl
      · rfl
    · rfl

/-- C4: a non-gap block is active iff `now` is before the nominal end
(floored start + 5 h) and the last observed entry is less than 5 h old; in
particular a block whose last entry is 3 h old inside its nominal window
is active, and one whose last entry is 6 h old is not. -/
theorem C4_block_active_detection :
    ∀ (s now : Int) (entries : List LoadedUsageEntry) (le : LoadedUsageEntry),
    entries.getLast? = some le →
    ((create_block s entries now).is_active = true ↔
      (now - le.timestamp < SESSION_DURATION_S ∧ now < s + SESSION_DURATION_S))
  ∧ (le.timestamp = now - 3 * 3600 → now < s + SESSION_DURATION_S →
      (create_block s entries now).is_active = true)
  ∧ (le.timestamp = now - 6 * 3600 →
      (create_block s entries now).is_active = false) := by
  intro s now entries le hl
  have hact : (create_block s entries now).is_active
      = (decide (now - le.timestamp < SESSION_DURATION_S)
          && decide (now < s + SESSION_DURATION_S)) := by
    rw [is_active_create_block, hl]
  refine ⟨?_, ?_, ?_⟩
  · rw [hact]
    simp
  · intro h3 hwin
    rw [hact, h3]
    simp only [Bool.and_eq_true, decide_eq_true_eq]
    constructor
    · simp only [SESSION_DURATION_S]
      omega
    · exact hwin
  · intro h6
    rw [hact, h6]
    simp only [Bool.and_eq_false_iff]
    left
    simp only [decide_eq_false_iff_not, not_lt, SESSION_DURATION_S]
    omega

/-- A pair of entries 10 minutes apart for the block witnesses. -/
def blockEntryA : LoadedUsageEntry :=
  { timestamp := 0, input_tokens := 1, output_tokens := 0,
    cache_creation_tokens := 0, cache_read_tokens := 0, cost_usd := some 0,
    model := "m", session_id := "s", version := none, project_path := "p" }

/-- Second entry of the pair, 600 s after `blockEntryA`. -/
def blockEntryB : LoadedUsageEntry :=
  { timestamp := 600, input_tokens := 2, output_tokens := 0,
    cache_creation_tokens := 0, cache_read_tokens := 0, cost_usd := some 0,
    model := "m", session_id := "s", version := none, project_path := "p" }

/-- Witness for C4: a block with entries at 0 s and 600 s seen at
`now = 3000` inside the window is active; seen at `now = 600 + 6 h` it is
not. -/
theorem C4_block_active_detection_witness :
    ((create_block 0 [blockEntryA, blockEntryB] 3000).is_active = true ↔
      (3000 - blockEntryB.timestamp < SESSION_DURATION_S
        ∧ 3000 < 0 + SESSION_DURATION_S))
  ∧ (create_block 0 [blockEntryA, blockEntryB] 22200).is_active = false :=
  ⟨(C4_block_active_detection 0 3000 [blockEntryA, blockEntryB] blockEntryB
      (by decide)).1,
   (C4_block_active_detection 0 22200 [blockEntryA, blockEntryB] blockEntryB
      (by decide)).2.2 (by decide)⟩

/-- The block's total token count (the `total_tokens` local of
`_create_block`). -/
def blockTokenSum (entries : List LoadedUsageEntry) : Int :=
  (entries.map (fun e => e.input_tokens)).sum
    + (entries.map (fun e => e.output_tokens)).sum
    + (entries.map (fun e => e.cache_creation_tokens)).sum
    + (entries.map (fun e => e.cache_read_tokens)).sum

/-- The block's total cost (the `cost_usd` local of `_create_block`). -/
def blockCostSum (entries : List LoadedUsageEntry) : Rat :=
  (entries.map calculate_entry_cost).sum

/-- C5: the five projection fields are populated exactly when the block is
active, has at least two entries, and the time between its first and last
entry is positive (so the guarded division never divides by zero);
when populated, burn_rate_tokens_per_minute = total tokens / duration
minutes, burn_rate_cost_per_hour = total cost / duration minutes x 60,
remaining_minutes = max 0 (whole minutes to the nominal end), projected
totals = current totals + burn rate x remaining minutes, and projected
cost is rounded to 2 decimal places. -/
theorem C5_burn_rate_projection :
    ∀ (s now : Int) (entries : List LoadedUsageEntry) (fe le : LoadedUsageEntry),
    entries.head? = some fe → entries.getLast? = some le →
    (¬((now - le.timestamp < SESSION_DURATION_S ∧ now < s + SESSION_DURATION_S)
        ∧ 2 ≤ entries.length ∧ fe.timestamp < le.timestamp) →
      (create_block s entries now).burn_rate_tokens_per_minute = none
      ∧ (create_block s entries now).burn_rate_cost_per_hour = none
      ∧ (create_block s entries now).remaining_minutes = none
      ∧ (create_block s entries now).projected_total_tokens = none
      ∧ (create_block s entries now).projected_total_cost = none)
  ∧ ((now - le.timestamp < SESSION_DURATION_S ∧ now < s + SESSION_DURATION_S) →
      2 ≤ entries.length → fe.timestamp < le.timestamp →
      (create_block s entries now).burn_rate_tokens_per_minute
          = some ((blockTokenSum entries : Rat)
              / (((le.timestamp - fe.timestamp : Int) : Rat) / 60))
      ∧ (create_block s entries now).burn_rate_cost_per_hour
          = some (blockCostSum entries
              / (((le.timestamp - fe.timestamp : Int) : Rat) / 60) * 60)
      ∧ (create_block s entries now).remaining_minutes
          = some (max 0 (pyInt (((s + SESSION_DURATION_S - now : Int) : Rat) / 60)))
      ∧ (create_block s entries now).projected_total_tokens
          = some (pyInt ((blockTokenSum entries : Rat)
              + (blockTokenSum entries : Rat)
                  / (((le.timestamp - fe.timestamp : Int) : Rat) / 60)
                  * ((max 0 (pyInt (((s + SESSION_DURATION_S - now : Int) : Rat) / 60))
                      : Int) : Rat)))
      ∧ (create_block s entries now).projected_total_cost
          = some (pyRound2 (blockCostSum entries
              + blockCostSum entries
                  / (((le.timestamp - fe.timestamp : Int) : Rat) / 60)
                  * ((max 0 (pyInt (((s + SESSION_DURATION_S - now : Int) : Rat) / 60))
                      : Int) : Rat)))) := by
  intro s now entries fe le hh hl
  constructor
  · intro hnot
    by_cases hA : ((decide (now - le.timestamp < SESSION_DURATION_S)
        && decide (now < s + SESSION_DURATION_S)) && decide (1 < entries.length)) = true
    · have hls : ¬ (fe.timestamp < le.timestamp) := by
        simp only [Bool.and_eq_true, decide_eq_true_eq] at hA
        intro hlt
        exact hnot ⟨⟨hA.1.1, hA.1.2⟩, by omega, hlt⟩
      have hdm : ¬ (0 < ((le.timestamp - fe.timestamp : Int) : Rat) / 60) := by
        rw [not_lt]
        have hx : ((le.timestamp - fe.timestamp : Int) : Rat) ≤ 0 := by
          have : le.timestamp - fe.timestamp ≤ (0 : Int) := by omega
          exact_mod_cast this
        exact div_nonpos_iff.mpr (Or.inr ⟨hx, by norm_num⟩)
      simp only [create_block, hl, hh]
      rw [if_pos hA, if_neg hdm]
      exact ⟨rfl, rfl, rfl, rfl, rfl⟩
    · simp only [create_block, hl, hh]
      rw [if_neg hA]
      exact ⟨rfl, rfl, rfl, rfl, rfl⟩
  · intro hact h2 hlt
    have hA : ((decide (now - le.timestamp < SESSION_DURATION_S)
        && decide (now < s + SESSION_DURATION_S)) && decide (1 < entries.length)) = true := by
      simp only [Bool.and_eq_true, decide_eq_true_eq]
      exact ⟨⟨hact.1, hact.2⟩, by omega⟩
    have hdm : 0 < ((le.timestamp - fe.timestamp : Int) : Rat) / 60 := by
      apply div_pos
      · have : (0 : Int) < le.timestamp - fe.timestamp := by omega
        exact_mod_cast this
      · norm_num
    have harg : ((s + SESSION_DURATION_S - now : Int) : Rat) * 1000 / (1000 * 60)
        = ((s + SESSION_DURATION_S - now : Int) : Rat) / 60 := by ring
    have hc : ∀ c d : Rat, c / d * 60 / 60 = c / d := by
      intro c d
      ring
    simp only [create_block, hl, hh]
    rw [if_pos hA, if_pos hdm, harg, hc]
    exact ⟨rfl, rfl, rfl, rfl, rfl⟩

/-- Witness for C5: entries at 0 s and 600 s; at `now = 3000` the block is
active and projected, at `now = 30000` the window has passed and every
projection field is absent. -/
theorem C5_burn_rate_projection_witness :
    ((create_block 0 [blockEntryA, blockEntryB] 30000).burn_rate_tokens_per_minute = none
      ∧ (create_block 0 [blockEntryA, blockEntryB] 30000).burn_rate_cost_per_hour = none
      ∧ (create_block 0 [blockEntryA, blockEntryB] 30000).remaining_minutes = none
      ∧ (create_block 0 [blockEntryA, blockEntryB] 30000).projected_total_tokens = none
      ∧ (create_block 0 [blockEntryA, blockEntryB] 30000).projected_total_cost = none)
  ∧ (create_block 0 [blockEntryA, blockEntryB] 3000).burn_rate_tokens_per_minute
      = some ((blockTokenSum [blockEntryA, blockEntryB] : Rat)
          / (((blockEntryB.timestamp - blockEntryA.timestamp : Int) : Rat) / 60))
  ∧ (create_block 0 [blockEntryA, blockEntryB] 3000).remaining_minutes
      = some (max 0 (pyInt (((0 + SESSION_DURATION_S - 3000 : Int) : Rat) / 60))) := by
  refine ⟨?_, ?_, ?_⟩
  · exact (C5_burn_rate_projection 0 30000 [blockEntryA, blockEntryB]
      blockEntryA blockEntryB (by decide) (by decide)).1 (by decide)
  · exact ((C5_burn_rate_projection 0 3000 [blockEntryA, blockEntryB]
      blockEntryA blockEntryB (by decide) (by decide)).2 (by decide) (by decide)
      (by decide)).1
  · exact ((C5_burn_rate_projection 0 3000 [blockEntryA, blockEntryB]
      blockEntryA blockEntryB (by decide) (by decide)).2 (by decide) (by decide)
      (by decide)).2.2.1

/-- Example entry at 00:00 (spec example, epoch-relative). -/
def exEntry0 : LoadedUsageEntry :=
  { timestamp := 0, input_tokens := 1, output_tokens := 0,
    cache_creation_tokens := 0, cache_read_tokens := 0, cost_usd := none,
    model := "m", session_id := "s", version := none, project_path := "p" }

/-- Example entry at 04:00. -/
def exEntry4 : LoadedUsageEntry :=
  { timestamp := 14400, input_tokens := 1, output_tokens := 0,
    cache_creation_tokens := 0, cache_read_tokens := 0, cost_usd := none,
    model := "m", session_id := "s", version := none, project_path := "p" }

/-- Example entry at 10:00. -/
def exEntry10 : LoadedUsageEntry :=
  { timestamp := 36000, input_tokens := 1, output_tokens := 0,
    cache_creation_tokens := 0, cache_read_tokens := 0, cost_usd := none,
    model := "m", session_id := "s", version := none, project_path := "p" }

/-- C3: with a block open, the segmenter closes it exactly when the next
entry is more than 5 h from the block start or more than 5 h from the
previous entry; a gap block spanning `[previous + 5 h, next)` is emitted
iff the gap since the previous entry exceeds 5 h; the new block starts at
the next entry's timestamp floored to the hour.  Entries at 00:00, 04:00
and 10:00 produce exactly block1 `[00:00, 05:00)` with actual end 04:00, a
gap block `[09:00, 10:00)`, and block2 starting at 10:00. -/
theorem C3_segmenter_close_and_gap :
    (∀ (now : Int) (st : SegState) (bs : Int) (le e : LoadedUsageEntry),
      st.cur_start = some bs → st.cur_entries.getLast? = some le →
      SESSION_DURATION_S < e.timestamp - bs
        ∨ SESSION_DURATION_S < e.timestamp - le.timestamp →
      segStep now st e =
        { blocks := st.blocks ++ [create_block bs st.cur_entries now]
            ++ (if SESSION_DURATION_S < e.timestamp - le.timestamp then
                  (create_gap_block le.timestamp e.timestamp).toList
                else []),
          cur_start := some (floor_to_hour e.timestamp),
          cur_entries := [e] })
  ∧ (∀ (now : Int) (st : SegState) (bs : Int) (le e : LoadedUsageEntry),
      st.cur_start = some bs → st.cur_entries.getLast? = some le →
      ¬(SESSION_DURATION_S < e.timestamp - bs
          ∨ SESSION_DURATION_S < e.timestamp - le.timestamp) →
      segStep now st e = { st with cur_entries := st.cur_entries ++ [e] })
  ∧ (∀ last_ts next_ts : Int, SESSION_DURATION_S < next_ts - last_ts →
      create_gap_block last_ts next_ts = some
        { start_time := last_ts + SESSION_DURATION_S, end_time := next_ts,
          actual_end_time := none, is_active := false, is_gap := true,
          input_tokens := 0, output_tokens := 0, cache_creation_tokens := 0,
          cache_read_tokens := 0, cost_usd := 0, models := [],
          burn_rate_tokens_per_minute := none, burn_rate_cost_per_hour := none,
          projected_total_tokens := none, projected_total_cost := none,
          remaining_minutes := none })
  ∧ ((identify_session_blocks 72000 [exEntry0, exEntry4, exEntry10]).map
        (fun b => (b.start_time, b.end_time, b.actual_end_time, b.is_gap))
      = [(0, 18000, some 14400, false), (32400, 36000, none, true),
         (36000, 54000, some 36000, false)]) := by
  have hiff : ∀ a b : Int, (SESSION_DURATION_MS < (a - b) * 1000
      ↔ SESSION_DURATION_S < a - b) := by
    intro a b
    simp only [SESSION_DURATION_MS, SESSION_DURATION_S]
    omega
  refine ⟨?_, ?_, ?_, by decide⟩
  · intro now st bs le e hcs hlast hclose
    simp only [segStep, hcs, hlast]
    rw [if_pos]
    · rw [if_congr (hiff e.timestamp le.timestamp) rfl rfl]
    · rcases hclose with h | h
      · exact Or.inl ((hiff e.timestamp bs).mpr h)
      · exact Or.inr ((hiff e.timestamp le.timestamp).mpr h)
  · intro now st bs le e hcs hlast hkeep
    simp only [segStep, hcs, hlast]
    rw [if_neg]
    intro hor
    rcases hor with h | h
    · exact hkeep (Or.inl ((hiff e.timestamp bs).mp h))
    · exact hkeep (Or.inr ((hiff e.timestamp le.timestamp).mp h))
  · intro last_ts next_ts h
    simp only [create_gap_block]
    rw [if_neg]
    omega

/-- Witness for C3: with a block open at start 0 holding the 00:00 and
04:00 entries, the 10:00 entry closes the block and emits the gap; with
only the 00:00 entry, the 04:00 entry is appended; the gap from 04:00 to
10:00 spans `[09:00, 10:00)`. -/
theorem C3_segmenter_close_and_gap_witness :
    segStep 72000 ⟨[], some 0, [exEntry0, exEntry4]⟩ exEntry10 =
      { blocks := [] ++ [create_block 0 [exEntry0, exEntry4] 72000]
          ++ (if SESSION_DURATION_S < exEntry10.timestamp - exEntry4.timestamp then
                (create_gap_block exEntry4.timestamp exEntry10.timestamp).toList
              else []),
        cur_start := some (floor_to_hour exEntry10.timestamp),
        cur_entries := [exEntry10] }
  ∧ segStep 72000 ⟨[], some 0, [exEntry0]⟩ exEntry4 =
      { (⟨[], some 0, [exEntry0]⟩ : SegState) with cur_entries := [exEntry0] ++ [exEntry4] }
  ∧ create_gap_block exEntry4.timestamp exEntry10.timestamp = some
      { start_time := exEntry4.timestamp + SESSION_DURATION_S,
        end_time := exEntry10.timestamp,
        actual_end_time := none, is_active := false, is_gap := true,
        input_tokens := 0, output_tokens := 0, cache_creation_tokens := 0,
        cache_read_tokens := 0, cost_usd := 0, models := [],
        burn_rate_tokens_per_minute := none, burn_rate_cost_per_hour := none,
        projected_total_tokens := none, projected_total_cost := none,
        remaining_minutes := none } :=
  ⟨C3_segmenter_close_and_gap.1 72000 ⟨[], some 0, [exEntry0, exEntry4]⟩ 0
      exEntry4 exEntry10 rfl (by decide) (by decide),
   C3_segmenter_close_and_gap.2.1 72000 ⟨[], some 0, [exEntry0]⟩ 0
      exEntry0 exEntry4 rfl (by decide) (by decide),
   C3_segmenter_close_and_gap.2.2.1 exEntry4.timestamp exEntry10.timestamp (by decide)⟩
